import Mathlib

/-!
# Verification of the summit_interview order-placement core

A shallow embedding of the order-placement subsystem of the
`summit_interview` marketplace backend, translated from the Python/Django
source:

* `src/grpc_service.py` — `SummitMarketService.CreateOrder`,
  `GetOrderStats` (the gRPC transport adapter; order creation runs inside
  `transaction.atomic()` with `select_for_update` row locks);
* `src/apps/orders/serializers.py` — `OrderCreateSerializer.create`,
  `OrderUpdateStatusSerializer`;
* `src/apps/orders/views.py` — `OrderViewSet.update_status`,
  `OrderViewSet.cancel_order`, `OrderViewSet.order_stats`;
* `src/apps/orders/tasks.py` — `update_product_stock`,
  `sync_external_inventory`;
* `src/apps/products/views.py` — `ProductViewSet.update_stock`;
* `src/graphql_schema.py` — `CreateOrder.mutate`.

Monetary amounts are Python `Decimal`s in the source — exact decimal
fractions.  The embedding represents them as `ℚ`, in which every decimal
is exactly representable, and models
`quantize(Decimal("0.01"), rounding=ROUND_HALF_UP)` explicitly as
`quantize2` (round-half-up to two fractional digits, ties away from zero,
matching `ROUND_HALF_UP`).

The database is modelled as an explicit record of rows; the Django
`transaction.atomic()` construct is modelled by running the transaction body as an
`Except` computation and discarding the candidate state on error (rollback).
`select_for_update` serializes concurrent reservations on the same product
row, so concurrent order placements are modelled by their serial
interleavings.
-/

/-- Order lifecycle states, from the status choices of the Order model
(pending / confirmed / processing / shipped / delivered / cancelled). -/
inductive OStatus where
  | pending
  | confirmed
  | processing
  | shipped
  | delivered
  | cancelled
deriving DecidableEq, Repr

/-- A `Product` row: primary key, owning vendor id, `price` (an exact
decimal, embedded as `ℚ`), `stock_quantity`.  Stock is an `Int` because
nothing at the database layer of the source prevents negative writes. -/
structure Product where
  pid : Nat
  vendor : Nat
  price : ℚ
  stock_quantity : Int
deriving DecidableEq, Repr

/-- An `Order` row.  The source stores monetary fields as Python
`Decimal`s (exact decimal fractions); the embedding uses `ℚ`, in which all
such values are exactly representable. -/
structure OrderRow where
  oid : Nat
  customerId : Nat
  status : OStatus
  subtotal : ℚ
  tax_amount : ℚ
  shipping_cost : ℚ
  total_amount : ℚ
deriving DecidableEq, Repr

/-- An `OrderItem` row: the purchase-time snapshot of one order line. -/
structure OrderItemRow where
  orderId : Nat
  productId : Nat
  quantity : Int
  unit_price : ℚ
  total_price : ℚ
deriving DecidableEq, Repr

/-- An `OrderStatus` history row (append-only status audit log). -/
structure OrderStatusRow where
  orderId : Nat
  status : OStatus
  createdBy : Nat
deriving DecidableEq, Repr

/-- The database state touched by the order-placement core. -/
structure DB where
  customers : List Nat
  addresses : List Nat
  products : List Product
  orders : List OrderRow
  items : List OrderItemRow
  events : List OrderStatusRow
deriving DecidableEq, Repr

/-- Row lookup `Product.objects.get(id=pid)`, or
`select_for_update().get(id=pid)`:
first row with the given primary key. -/
def findProduct (ps : List Product) (pid : Nat) : Option Product :=
  ps.find? (fun p => p.pid = pid)

/-- Row write-back `product.save(update_fields=["stock_quantity"])`: set the stock
counter of the row with primary key `pid`. -/
def setStock (ps : List Product) (pid : Nat) (s : Int) : List Product :=
  ps.map (fun p => if p.pid = pid then { p with stock_quantity := s } else p)

/-- Row lookup `Order.objects.get(id=oid)`: first order row with the given key. -/
def findOrder (os : List OrderRow) (oid : Nat) : Option OrderRow :=
  os.find? (fun o => o.oid = oid)

/-- Write back one order row by primary key. -/
def setOrder (os : List OrderRow) (oid : Nat) (f : OrderRow → OrderRow) :
    List OrderRow :=
  os.map (fun o => if o.oid = oid then f o else o)

/-- Round a rational to the nearest integer, half-up (ties away from
zero), as the Python `Decimal` rounding mode `ROUND_HALF_UP` does. -/
def roundHalfUpInt (x : ℚ) : Int :=
  if 0 ≤ x then ⌊x + 1 / 2⌋ else -⌊-x + 1 / 2⌋

/-- The source expression `(x).quantize(Decimal("0.01"), rounding=ROUND_HALF_UP)`: round to two
fractional digits, half-up. -/
def quantize2 (x : ℚ) : ℚ :=
  (roundHalfUpInt (x * 100) : ℚ) / 100

/-- Predicate: `x` has at most two fractional decimal digits (is a whole number of
cents) — the form of every `Decimal` column value (`decimal_places=2`). -/
def TwoDp (x : ℚ) : Prop :=
  ∃ n : Int, x = (n : ℚ) / 100

/-- One requested order line from the wire (`product_id`, `quantity`). -/
structure Line where
  productId : Nat
  quantity : Int
deriving DecidableEq, Repr

/-- The gRPC `CreateOrderRequest` surface used by `CreateOrder`. -/
structure CreateOrderRequest where
  customerId : Nat
  shippingAddressId : Option Nat
  billingAddressId : Option Nat
  items : List Line
deriving DecidableEq, Repr

/-- gRPC status codes raised through `context.abort` in `CreateOrder`. -/
inductive GrpcError where
  | notFound (what : String)
  | invalidArgument (what : String)
  | insufficientStock (pid : Nat)
deriving DecidableEq, Repr

/-- The item loop of `SummitMarketService.CreateOrder`
(src/grpc_service.py lines 196–225): for each requested line, look the
product up under the row lock, abort `NOT_FOUND` if missing, abort
`INVALID_ARGUMENT` if `quantity <= 0`, abort `FAILED_PRECONDITION`
(insufficient stock) if `stock_quantity < quantity`; otherwise create the
`OrderItem` snapshot, decrement the stock and accumulate the subtotal. -/
def processLines (oid : Nat) :
    List Line → List Product → List OrderItemRow → ℚ →
    Except GrpcError (List Product × List OrderItemRow × ℚ)
  | [], ps, acc, sub => .ok (ps, acc, sub)
  | l :: rest, ps, acc, sub =>
    match findProduct ps l.productId with
    | none => .error (.notFound "Product not found")
    | some p =>
      if l.quantity ≤ 0 then
        .error (.invalidArgument "Quantity must be > 0")
      else if p.stock_quantity < l.quantity then
        .error (.insufficientStock p.pid)
      else
        let line_total := p.price * (l.quantity : ℚ)
        processLines oid rest
          (setStock ps p.pid (p.stock_quantity - l.quantity))
          (acc ++ [{ orderId := oid, productId := l.productId,
                     quantity := l.quantity, unit_price := p.price,
                     total_price := line_total }])
          (sub + line_total)

/-- Primary key handed to the next created order (autoincrement). -/
def freshOrderId (db : DB) : Nat :=
  (db.orders.map (fun o => o.oid)).foldr max 0 + 1

/-- Modelled from the spec: `apps/orders/models.py` is not among the
sources, so the `Order.status` column default is taken from the spec
(`pending` is the sole initial state); the gRPC source itself relies on it
("status default assumed by model", suggesting pending). -/
def orderDefaultStatus : OStatus := .pending

/-- Lookup of an optional address id (`shipping_address_id` /
`billing_address_id`): an absent id (sent as 0) is skipped, a present one
must exist in `ShippingAddress.objects`. -/
def addrCheck (db : DB) : Option Nat → Bool
  | none => true
  | some aid => decide (aid ∈ db.addresses)

/-- The body of `SummitMarketService.CreateOrder`
(src/grpc_service.py lines 162–236): resolve the customer and the optional
addresses (abort `NOT_FOUND` when missing), then — inside
`transaction.atomic()` — create the pending order row, run the item loop,
compute `tax = quantize2(subtotal * 0.10)`, `shipping = 10.00` when
`subtotal > 0` else `0.00`, `total = quantize2(subtotal + tax + shipping)`,
and save the order.  Returns the candidate committed state and the saved
order. -/
def grpcCreateOrderBody (db : DB) (req : CreateOrderRequest) :
    Except GrpcError (DB × OrderRow) :=
  if req.customerId ∈ db.customers then
    if addrCheck db req.shippingAddressId then
      if addrCheck db req.billingAddressId then
        match processLines (freshOrderId db) req.items db.products [] 0 with
        | .error e => .error e
        | .ok (ps, newItems, subtotal) =>
          let tax := quantize2 (subtotal * (10 / 100))
          let shipping : ℚ := if 0 < subtotal then 10 else 0
          let total := quantize2 (subtotal + tax + shipping)
          let order : OrderRow :=
            { oid := freshOrderId db, customerId := req.customerId,
              status := orderDefaultStatus, subtotal := subtotal,
              tax_amount := tax, shipping_cost := shipping,
              total_amount := total }
          .ok ({ db with products := ps,
                         orders := db.orders ++ [order],
                         items := db.items ++ newItems }, order)
      else .error (.notFound "Billing address not found")
    else .error (.notFound "Shipping address not found")
  else .error (.notFound "Customer not found")

/-- The full `SummitMarketService.CreateOrder` with `transaction.atomic()`
semantics: when the body aborts, every write of the attempt is rolled back
and the database is unchanged. -/
def grpcCreateOrder (db : DB) (req : CreateOrderRequest) :
    Except GrpcError OrderRow × DB :=
  match grpcCreateOrderBody db req with
  | .error e => (.error e, db)
  | .ok (db', o) => (.ok o, db')

/-- One nested item of the REST order-creation payload
(`OrderItemSerializer` writable fields; `total_price` is read-only and
therefore client input for it is ignored). -/
structure RestItemReq where
  productId : Nat
  quantity : Int
  unit_price : ℚ
deriving DecidableEq, Repr

/-- The REST order-creation payload (`OrderCreateSerializer` fields):
`subtotal`, `tax_amount` and `shipping_cost` are client-supplied. -/
structure RestCreateRequest where
  customerId : Nat
  subtotal : ℚ
  tax_amount : ℚ
  shipping_cost : ℚ
  items : List RestItemReq
deriving DecidableEq, Repr

/-- Modelled from the spec: the model layer computing
`OrderItem.total_price` (`apps/orders/models.py`) is not among the
sources and the REST item serializer marks `total_price` read-only; the
spec fixes `total_price = unit_price * quantity`. -/
def restItemTotal (it : RestItemReq) : ℚ :=
  it.unit_price * (it.quantity : ℚ)

/-- The REST creation path `OrderCreateSerializer.create` (src/apps/orders/serializers.py lines
107–117): create the order row from the client-supplied monetary fields,
create one `OrderItem` row per nested item, then recompute
`total_amount = subtotal + tax_amount + shipping_cost` and save.  No
product is looked up and no stock is read, validated or decremented. -/
def restCreateOrder (db : DB) (req : RestCreateRequest) : DB × OrderRow :=
  let oid := freshOrderId db
  let newItems := req.items.map (fun it =>
    { orderId := oid, productId := it.productId, quantity := it.quantity,
      unit_price := it.unit_price, total_price := restItemTotal it })
  let order : OrderRow :=
    { oid := oid, customerId := req.customerId, status := orderDefaultStatus,
      subtotal := req.subtotal, tax_amount := req.tax_amount,
      shipping_cost := req.shipping_cost,
      total_amount := req.subtotal + req.tax_amount + req.shipping_cost }
  ({ db with orders := db.orders ++ [order], items := db.items ++ newItems },
   order)

/-- Arguments of the GraphQL `CreateOrder` mutation (customer id and the
list of `OrderItemInput`s). -/
structure GqlCreateRequest where
  customerId : Nat
  items : List Line
deriving DecidableEq, Repr

/-- The item loop of the GraphQL `CreateOrder.mutate`
(src/graphql_schema.py lines 162–174): look each product up (a missing one
raises), reject `quantity <= 0`, create the `OrderItem` row and accumulate
the running total.  Product stock is never read or written. -/
def gqlProcessItems (oid : Nat) :
    List Line → List Product → List OrderItemRow → ℚ →
    Option String × List OrderItemRow × ℚ
  | [], _, acc, tot => (none, acc, tot)
  | l :: rest, ps, acc, tot =>
    match findProduct ps l.productId with
    | none => (some "Product matching query does not exist.", acc, tot)
    | some p =>
      if l.quantity ≤ 0 then
        (some "Quantity must be greater than zero", acc, tot)
      else
        gqlProcessItems oid rest ps
          (acc ++ [{ orderId := oid, productId := l.productId,
                     quantity := l.quantity, unit_price := p.price,
                     total_price := p.price * (l.quantity : ℚ) }])
          (tot + p.price * (l.quantity : ℚ))

/-- The GraphQL `CreateOrder.mutate` (src/graphql_schema.py lines
148–182).  There is no `transaction.atomic()` here: the order row is
created first and item rows as the loop goes, so an error raised mid-loop
leaves those rows persisted.  On success the money fields are written as
`subtotal = total`, `tax_amount = total * 0.1` (the source computes this in
float with no rounding; floats are modelled as exact rationals),
`shipping_cost = 10.0` unconditionally, and
`total_amount = subtotal + tax_amount + shipping_cost`. -/
def gqlCreateOrder (db : DB) (req : GqlCreateRequest) : Option String × DB :=
  if req.customerId ∈ db.customers then
    let oid := freshOrderId db
    let order0 : OrderRow :=
      { oid := oid, customerId := req.customerId,
        status := orderDefaultStatus, subtotal := 0, tax_amount := 0,
        shipping_cost := 0, total_amount := 0 }
    match gqlProcessItems oid req.items db.products [] 0 with
    | (some e, acc, _) =>
      (some e, { db with orders := db.orders ++ [order0],
                         items := db.items ++ acc })
    | (none, acc, total) =>
      let order :=
        { order0 with subtotal := total, tax_amount := total * (1 / 10),
                      shipping_cost := 10,
                      total_amount := total + total * (1 / 10) + 10 }
      (none, { db with orders := db.orders ++ [order],
                       items := db.items ++ acc })
  else (some "User matching query does not exist.", db)

/-- The REST action `OrderViewSet.update_status` (src/apps/orders/views.py lines 91–106):
look the order up (404 when missing), save the requested status through
`OrderUpdateStatusSerializer` — which validates only that the value is
one of the status choices of the model, with no transition or duplicate check —
and append one `OrderStatus` history row.  Returns `none` on 404. -/
def update_status (db : DB) (oid : Nat) (newStatus : OStatus) (actor : Nat) :
    Option DB :=
  match findOrder db.orders oid with
  | none => none
  | some _ =>
    some { db with
      orders := setOrder db.orders oid (fun o => { o with status := newStatus }),
      events := db.events ++
        [{ orderId := oid, status := newStatus, createdBy := actor }] }

/-- The REST action `OrderViewSet.cancel_order` (src/apps/orders/views.py lines 115–133):
look the order up; reject with HTTP 400 unless the current status is
`pending` or `confirmed`; otherwise set the status to `cancelled`, save,
and append one cancellation history row.  No product stock is touched. -/
def cancel_order (db : DB) (oid : Nat) (actor : Nat) : Except String DB :=
  match findOrder db.orders oid with
  | none => .error "Not found"
  | some o =>
    if o.status = .pending ∨ o.status = .confirmed then
      .ok { db with
        orders := setOrder db.orders oid (fun x => { x with status := .cancelled }),
        events := db.events ++
          [{ orderId := oid, status := .cancelled, createdBy := actor }] }
    else .error "Order cannot be cancelled in current status"

/-- The REST action `ProductViewSet.update_stock` (src/apps/products/views.py lines
178–191): look the product up (404 when missing); when the request carries
a `quantity`, assign it to `stock_quantity` verbatim — no sign or range
check — and save; when it carries none, change nothing. -/
def update_stock (db : DB) (pid : Nat) (quantity : Option Int) : Option DB :=
  match findProduct db.products pid with
  | none => none
  | some _ =>
    match quantity with
    | some q => some { db with products := setStock db.products pid q }
    | none => some db

/-- The Celery task `update_product_stock` (src/apps/orders/tasks.py lines
53–65): set `stock_quantity` to `max(0, stock_quantity - quantity)` — a
delta decrement clamped at zero.  A missing product raises and the task
retries, leaving state unchanged, which the embedding renders as a no-op;
the low-stock e-mail side effect is outside the state model. -/
def update_product_stock (db : DB) (pid : Nat) (quantity : Int) : DB :=
  { db with products := db.products.map (fun p =>
      if p.pid = pid then
        { p with stock_quantity := max 0 (p.stock_quantity - quantity) }
      else p) }

/-- One external-inventory snapshot, the JSON body of a 200 response from
the external system: the `stock` / `price` keys may each be absent
(`data.get` falls back to the current value). -/
structure ExtSnapshot where
  stock : Option Int
  price : Option ℚ
deriving DecidableEq, Repr

/-- The per-product step of `sync_external_inventory`: on a 200 response
(`fetch` returns a snapshot) overwrite stock and price with the snapshot
values, keeping the current value for an absent key; on a non-200 response
(`fetch` returns `none`) leave the product unchanged.  Products of other
vendors are not visited. -/
def syncProduct (fetch : Nat → Option ExtSnapshot) (vendorId : Nat)
    (p : Product) : Product :=
  if p.vendor = vendorId then
    match fetch p.pid with
    | some data =>
      { p with stock_quantity := data.stock.getD p.stock_quantity,
               price := data.price.getD p.price }
    | none => p
  else p

/-- The Celery task `sync_external_inventory` (src/apps/orders/tasks.py
lines 142–159): for every product of the vendor, fetch the external
snapshot (keyed here by product id standing for the SKU) and apply
`syncProduct`. -/
def sync_external_inventory (db : DB) (vendorId : Nat)
    (fetch : Nat → Option ExtSnapshot) : DB :=
  { db with products := db.products.map (syncProduct fetch vendorId) }

/-- The order-statistics result (`order_stats` REST action and
`GetOrderStats` gRPC method share these semantics; the gRPC one only
formats the two money fields to 2 dp for the wire). -/
structure OrderStatsResult where
  total_orders : Nat
  total_revenue : ℚ
  average_order_value : ℚ
deriving DecidableEq, Repr

/-- The statistics endpoints `OrderViewSet.order_stats` (src/apps/orders/views.py lines 77–89) and
`SummitMarketService.GetOrderStats` (src/grpc_service.py lines 263–276):
count all orders, sum `total_amount` over the orders whose status is
`delivered`, and divide that revenue by the delivered count (0 when there
are none).  The `Decimal` division is modelled as exact division in `ℚ`. -/
def order_stats (orders : List OrderRow) : OrderStatsResult :=
  let delivered := orders.filter (fun o => o.status = OStatus.delivered)
  let total_revenue := delivered.foldl (fun acc o => acc + o.total_amount) 0
  { total_orders := orders.length,
    total_revenue := total_revenue,
    average_order_value :=
      if 0 < delivered.length then total_revenue / (delivered.length : ℚ)
      else 0 }

/-! ## Concrete fixtures

Small database states used to evaluate the operations at the concrete
inputs of the testable properties of the spec. -/

/-- Fixture: the worked example of the spec — customer 1 and a product
priced 19.99 with stock 10. -/
def exampleDb : DB :=
  { customers := [1], addresses := [],
    products := [{ pid := 1, vendor := 9, price := 1999 / 100,
                   stock_quantity := 10 }],
    orders := [], items := [], events := [] }

/-- Fixture: gRPC request for three units of product 1. -/
def exampleReq : CreateOrderRequest :=
  { customerId := 1, shippingAddressId := none, billingAddressId := none,
    items := [{ productId := 1, quantity := 3 }] }

/-- Fixture: the order row the gRPC adapter produces for `exampleReq` on
`exampleDb` (subtotal 59.97, tax 6.00, shipping 10.00, total 75.97). -/
def exampleOrder : OrderRow :=
  { oid := 1, customerId := 1, status := .pending, subtotal := 5997 / 100,
    tax_amount := 6, shipping_cost := 10, total_amount := 7597 / 100 }

/-- Fixture: REST creation payload mirroring `exampleReq` (the client
supplies the money fields on this path). -/
def exampleRestReq : RestCreateRequest :=
  { customerId := 1, subtotal := 5997 / 100, tax_amount := 6,
    shipping_cost := 10,
    items := [{ productId := 1, quantity := 3, unit_price := 1999 / 100 }] }

/-- Fixture: two products where the second line of `twoLineReq` asks for
more than the available stock. -/
def twoLineDb : DB :=
  { customers := [1], addresses := [],
    products := [{ pid := 1, vendor := 9, price := 5, stock_quantity := 4 },
                 { pid := 2, vendor := 9, price := 3, stock_quantity := 1 }],
    orders := [], items := [], events := [] }

/-- Fixture: a two-line order whose second line has insufficient stock. -/
def twoLineReq : CreateOrderRequest :=
  { customerId := 1, shippingAddressId := none, billingAddressId := none,
    items := [{ productId := 1, quantity := 2 },
              { productId := 2, quantity := 5 }] }

/-- Fixture: a product with stock 5 for the reservation race scenario. -/
def raceDb : DB :=
  { customers := [1], addresses := [],
    products := [{ pid := 1, vendor := 9, price := 5, stock_quantity := 5 }],
    orders := [], items := [], events := [] }

/-- Fixture: request for five units of product 1 (used twice in the race
scenario). -/
def raceReq : CreateOrderRequest :=
  { customerId := 1, shippingAddressId := none, billingAddressId := none,
    items := [{ productId := 1, quantity := 5 }] }

/-- Fixture: a single integer-priced product with stock 10, for the
background-task and manual stock-update scenarios. -/
def taskDb : DB :=
  { customers := [], addresses := [],
    products := [{ pid := 1, vendor := 9, price := 5, stock_quantity := 10 }],
    orders := [], items := [], events := [] }

/-- Fixture: a pending order (id 1) with one line of three units. -/
def pendingOrderDb : DB :=
  { customers := [1], addresses := [],
    products := [{ pid := 1, vendor := 9, price := 5, stock_quantity := 7 }],
    orders := [{ oid := 1, customerId := 1, status := .pending,
                 subtotal := 15, tax_amount := 2, shipping_cost := 10,
                 total_amount := 27 }],
    items := [{ orderId := 1, productId := 1, quantity := 3,
                unit_price := 5, total_price := 15 }],
    events := [{ orderId := 1, status := .pending, createdBy := 1 }] }

/-- Fixture: the same order in status `shipped`, to exercise the branch
that refuses cancellation. -/
def shippedOrderDb : DB :=
  { pendingOrderDb with
    orders := [{ oid := 1, customerId := 1, status := .shipped,
                 subtotal := 15, tax_amount := 2, shipping_cost := 10,
                 total_amount := 27 }] }

/-- Fixture: one delivered order (total 30) and one pending order
(total 50), for the statistics endpoints. -/
def statsOrders : List OrderRow :=
  [{ oid := 1, customerId := 1, status := .delivered, subtotal := 25,
     tax_amount := 2, shipping_cost := 3, total_amount := 30 },
   { oid := 2, customerId := 1, status := .pending, subtotal := 45,
     tax_amount := 2, shipping_cost := 3, total_amount := 50 }]

/-! ## General lemmas about the embedded primitives -/

theorem setStock_preserves_pid (p : Product) (pid : Nat) (v : Int) :
    (if p.pid = pid then { p with stock_quantity := v } else p).pid = p.pid := by
  split <;> rfl

theorem findProduct_setStock_self {ps : List Product} {pid : Nat} {p : Product}
    (v : Int) (h : findProduct ps pid = some p) :
    findProduct (setStock ps pid v) pid = some { p with stock_quantity := v } := by
  have hpid : p.pid = pid := by simpa using List.find?_some h
  unfold findProduct setStock
  rw [List.find?_map]
  have hpred :
      ((fun q : Product => decide (q.pid = pid)) ∘
        (fun q : Product =>
          if q.pid = pid then { q with stock_quantity := v } else q)) =
      (fun q : Product => decide (q.pid = pid)) := by
    funext q
    by_cases hq : q.pid = pid <;> simp [hq]
  rw [hpred]
  unfold findProduct at h
  rw [h]
  simp [hpid]

theorem mem_setStock {ps : List Product} {pid : Nat} {v : Int} {q : Product}
    (h : q ∈ setStock ps pid v) : q ∈ ps ∨ q.stock_quantity = v := by
  unfold setStock at h
  rcases List.mem_map.mp h with ⟨x, hx, rfl⟩
  by_cases hq : x.pid = pid
  · right; simp [hq]
  · left; simpa [hq] using hx

theorem mem_setStock_price {ps : List Product} {pid : Nat} {v : Int} {q : Product}
    (h : q ∈ setStock ps pid v) : ∃ x ∈ ps, q.price = x.price := by
  unfold setStock at h
  rcases List.mem_map.mp h with ⟨x, hx, rfl⟩
  refine ⟨x, hx, ?_⟩
  by_cases hq : x.pid = pid <;> simp [hq]

theorem findOrder_setOrder_self {os : List OrderRow} {oid : Nat} {o : OrderRow}
    {f : OrderRow → OrderRow} (hf : ∀ x, (f x).oid = x.oid)
    (h : findOrder os oid = some o) :
    findOrder (setOrder os oid f) oid = some (f o) := by
  have hoid : o.oid = oid := by simpa using List.find?_some h
  unfold findOrder setOrder
  rw [List.find?_map]
  have hpred :
      ((fun q : OrderRow => decide (q.oid = oid)) ∘
        (fun q : OrderRow => if q.oid = oid then f q else q)) =
      (fun q : OrderRow => decide (q.oid = oid)) := by
    funext q
    by_cases hq : q.oid = oid <;> simp [hq, hf]
  rw [hpred]
  unfold findOrder at h
  rw [h]
  simp [hoid]

theorem twoDp_zero : TwoDp 0 := ⟨0, by norm_num⟩

theorem twoDp_add {x y : ℚ} (hx : TwoDp x) (hy : TwoDp y) : TwoDp (x + y) := by
  rcases hx with ⟨n, rfl⟩
  rcases hy with ⟨m, rfl⟩
  exact ⟨n + m, by push_cast; ring⟩

theorem twoDp_mul_int {x : ℚ} (hx : TwoDp x) (q : Int) : TwoDp (x * (q : ℚ)) := by
  rcases hx with ⟨n, rfl⟩
  exact ⟨n * q, by push_cast; ring⟩

theorem twoDp_quantize2 (x : ℚ) : TwoDp (quantize2 x) :=
  ⟨roundHalfUpInt (x * 100), rfl⟩

theorem roundHalfUpInt_intCast (n : Int) : roundHalfUpInt (n : ℚ) = n := by
  unfold roundHalfUpInt
  have hhalf : ⌊(1 / 2 : ℚ)⌋ = 0 := by norm_num
  by_cases h : (0 : ℚ) ≤ (n : ℚ)
  · rw [if_pos h, Int.floor_int_add, hhalf, add_zero]
  · rw [if_neg h]
    have : (-(n : ℚ)) = ((-n : Int) : ℚ) := by push_cast; ring
    rw [this, Int.floor_int_add, hhalf, add_zero, neg_neg]

theorem quantize2_eq_self {x : ℚ} (hx : TwoDp x) : quantize2 x = x := by
  rcases hx with ⟨n, rfl⟩
  unfold quantize2
  have h100 : ((n : ℚ) / 100) * 100 = (n : ℚ) := by
    field_simp
  rw [h100, roundHalfUpInt_intCast]

theorem processLines_ok_items (oid : Nat) (lines : List Line) :
    ∀ (ps : List Product) (acc : List OrderItemRow) (sub : ℚ)
      (ps' : List Product) (acc' : List OrderItemRow) (sub' : ℚ),
      processLines oid lines ps acc sub = .ok (ps', acc', sub') →
      ∃ new : List OrderItemRow,
        acc' = acc ++ new ∧
        sub' = sub + (new.map (fun it => it.total_price)).sum ∧
        ∀ it ∈ new, it.orderId = oid := by
  induction lines with
  | nil =>
    intro ps acc sub ps' acc' sub' h
    simp only [processLines, Except.ok.injEq, Prod.mk.injEq] at h
    exact ⟨[], by simp [h.2.1.symm], by simp [h.2.2.symm], by simp⟩
  | cons l rest ih =>
    intro ps acc sub ps' acc' sub' h
    simp only [processLines] at h
    split at h
    next => simp at h
    next p heq =>
      split at h
      next => simp at h
      next hq0 =>
        split at h
        next => simp at h
        next hs =>
          obtain ⟨new, hacc, hsub, hoid⟩ := ih _ _ _ _ _ _ h
          refine ⟨{ orderId := oid, productId := l.productId,
                    quantity := l.quantity, unit_price := p.price,
                    total_price := p.price * (l.quantity : ℚ) } :: new,
                  ?_, ?_, ?_⟩
          · simpa using hacc
          · rw [hsub]; simp; ring
          · intro it hit
            rcases List.mem_cons.mp hit with h1 | h2
            · rw [h1]
            · exact hoid it h2

theorem processLines_ok_nonneg (oid : Nat) (lines : List Line) :
    ∀ (ps : List Product) (acc : List OrderItemRow) (sub : ℚ)
      (ps' : List Product) (acc' : List OrderItemRow) (sub' : ℚ),
      (∀ p ∈ ps, 0 ≤ p.stock_quantity) →
      processLines oid lines ps acc sub = .ok (ps', acc', sub') →
      ∀ p ∈ ps', 0 ≤ p.stock_quantity := by
  induction lines with
  | nil =>
    intro ps acc sub ps' acc' sub' hnn h
    simp only [processLines, Except.ok.injEq, Prod.mk.injEq] at h
    rw [← h.1]
    exact hnn
  | cons l rest ih =>
    intro ps acc sub ps' acc' sub' hnn h
    simp only [processLines] at h
    split at h
    next => simp at h
    next p heq =>
      split at h
      next => simp at h
      next hq0 =>
        split at h
        next => simp at h
        next hs =>
          refine ih _ _ _ _ _ _ ?_ h
          intro q hq'
          rcases mem_setStock hq' with hmem | hval
          · exact hnn q hmem
          · rw [hval]; omega

theorem processLines_ok_twoDp (oid : Nat) (lines : List Line) :
    ∀ (ps : List Product) (acc : List OrderItemRow) (sub : ℚ)
      (ps' : List Product) (acc' : List OrderItemRow) (sub' : ℚ),
      (∀ p ∈ ps, TwoDp p.price) → TwoDp sub →
      processLines oid lines ps acc sub = .ok (ps', acc', sub') →
      TwoDp sub' := by
  induction lines with
  | nil =>
    intro ps acc sub ps' acc' sub' hpr hsub h
    simp only [processLines, Except.ok.injEq, Prod.mk.injEq] at h
    rw [← h.2.2]
    exact hsub
  | cons l rest ih =>
    intro ps acc sub ps' acc' sub' hpr hsub h
    simp only [processLines] at h
    split at h
    next => simp at h
    next p heq =>
      split at h
      next => simp at h
      next hq0 =>
        split at h
        next => simp at h
        next hs =>
          have hp : p ∈ ps := List.mem_of_find?_eq_some heq
          refine ih _ _ _ _ _ _ ?_ ?_ h
          · intro q hq'
            rcases mem_setStock_price hq' with ⟨x, hx, hxq⟩
            rw [hxq]
            exact hpr x hx
          · exact twoDp_add hsub (twoDp_mul_int (hpr p hp) l.quantity)

theorem grpcCreateOrder_error_state {db : DB} {req : CreateOrderRequest}
    {e : GrpcError} (h : (grpcCreateOrder db req).1 = .error e) :
    (grpcCreateOrder db req).2 = db := by
  unfold grpcCreateOrder at h ⊢
  cases hb : grpcCreateOrderBody db req with
  | error e2 => rfl
  | ok pr =>
    obtain ⟨db1, o1⟩ := pr
    rw [hb] at h
    simp at h

theorem grpcCreateOrder_ok_inv {db : DB} {req : CreateOrderRequest}
    {o : OrderRow} {db' : DB}
    (h : grpcCreateOrder db req = (.ok o, db')) :
    ∃ ps' newItems,
      processLines (freshOrderId db) req.items db.products [] 0 =
        .ok (ps', newItems, o.subtotal) ∧
      o.oid = freshOrderId db ∧
      o.customerId = req.customerId ∧
      o.status = orderDefaultStatus ∧
      o.tax_amount = quantize2 (o.subtotal * (10 / 100)) ∧
      o.shipping_cost = (if 0 < o.subtotal then (10 : ℚ) else 0) ∧
      o.total_amount = quantize2 (o.subtotal + o.tax_amount + o.shipping_cost) ∧
      db'.products = ps' ∧
      db'.orders = db.orders ++ [o] ∧
      db'.items = db.items ++ newItems ∧
      db'.events = db.events ∧
      db'.customers = db.customers ∧
      db'.addresses = db.addresses := by
  unfold grpcCreateOrder at h
  cases hb : grpcCreateOrderBody db req with
  | error e => rw [hb] at h; simp at h
  | ok pr =>
    obtain ⟨db1, o1⟩ := pr
    rw [hb] at h
    simp only [Prod.mk.injEq, Except.ok.injEq] at h
    obtain ⟨ho, hdb⟩ := h
    subst ho hdb
    unfold grpcCreateOrderBody at hb
    split at hb
    next hc =>
      split at hb
      next hsh =>
        split at hb
        next hbl =>
          split at hb
          next e heq => simp at hb
          next ps newItems subtotal heq =>
            simp only [Except.ok.injEq, Prod.mk.injEq] at hb
            obtain ⟨hdb1, ho1⟩ := hb
            subst hdb1 ho1
            exact ⟨ps, newItems, heq, rfl, rfl, rfl, rfl, rfl, rfl, rfl,
                   rfl, rfl, rfl, rfl, rfl⟩
        next => simp at hb
      next => simp at hb
    next => simp at hb

theorem processLines_single_ok {oid : Nat} {l : Line} {ps : List Product}
    {acc : List OrderItemRow} {sub : ℚ} {p : Product}
    (hp : findProduct ps l.productId = some p)
    (hq : ¬ l.quantity ≤ 0) (hs : ¬ p.stock_quantity < l.quantity) :
    processLines oid [l] ps acc sub =
      .ok (setStock ps l.productId (p.stock_quantity - l.quantity),
           acc ++ [{ orderId := oid, productId := l.productId,
                     quantity := l.quantity, unit_price := p.price,
                     total_price := p.price * (l.quantity : ℚ) }],
           sub + p.price * (l.quantity : ℚ)) := by
  have hpid : p.pid = l.productId := by simpa using List.find?_some hp
  simp [processLines, hp, hq, hs, hpid]

theorem processLines_single_checks {oid : Nat} {l : Line} {ps : List Product}
    {acc : List OrderItemRow} {sub : ℚ} {p : Product}
    {res : List Product × List OrderItemRow × ℚ}
    (hp : findProduct ps l.productId = some p)
    (h : processLines oid [l] ps acc sub = .ok res) :
    ¬ l.quantity ≤ 0 ∧ ¬ p.stock_quantity < l.quantity := by
  by_cases hq : l.quantity ≤ 0
  · simp [processLines, hp, hq] at h
  · by_cases hs : p.stock_quantity < l.quantity
    · simp [processLines, hp, hq, hs] at h
    · exact ⟨hq, hs⟩

theorem grpcCreateOrder_single_fail {db : DB} {req : CreateOrderRequest}
    {pid : Nat} {q : Int} {p : Product}
    (hit : req.items = [{ productId := pid, quantity := q }])
    (hp : findProduct db.products pid = some p)
    (hs : p.stock_quantity < q) :
    (∀ o, (grpcCreateOrder db req).1 ≠ .ok o) ∧
    (grpcCreateOrder db req).2 = db := by
  have hnotok : ∀ o, (grpcCreateOrder db req).1 ≠ .ok o := by
    intro o ho
    rcases hgr : grpcCreateOrder db req with ⟨r, st⟩
    rw [hgr] at ho
    simp only at ho
    subst ho
    obtain ⟨ps', newItems, hpl, -⟩ := grpcCreateOrder_ok_inv hgr
    rw [hit] at hpl
    have := (@processLines_single_checks (freshOrderId db)
      { productId := pid, quantity := q } db.products [] 0 p _ hp hpl).2
    exact this hs
  refine ⟨hnotok, ?_⟩
  rcases h1 : (grpcCreateOrder db req).1 with e | o
  · exact grpcCreateOrder_error_state h1
  · exact absurd h1 (hnotok o)

theorem grpcCreateOrder_single_fail_error {db : DB} {req : CreateOrderRequest}
    {pid : Nat} {q : Int} {p : Product}
    (hc : req.customerId ∈ db.customers)
    (hsh : req.shippingAddressId = none) (hbl : req.billingAddressId = none)
    (hit : req.items = [{ productId := pid, quantity := q }])
    (hp : findProduct db.products pid = some p)
    (hq : ¬ q ≤ 0) (hs : p.stock_quantity < q) :
    grpcCreateOrder db req = (.error (.insufficientStock pid), db) := by
  have hpid : p.pid = pid := by simpa using List.find?_some hp
  have hpl : processLines (freshOrderId db) req.items db.products [] 0 =
      .error (.insufficientStock pid) := by
    rw [hit]
    simp [processLines, hp, hq, hs, hpid]
  unfold grpcCreateOrder grpcCreateOrderBody
  simp [hc, hsh, hbl, addrCheck, hpl]

theorem grpcCreateOrder_single_ok {db : DB} {req : CreateOrderRequest}
    {pid : Nat} {q : Int} {p : Product}
    (hc : req.customerId ∈ db.customers)
    (hsh : req.shippingAddressId = none) (hbl : req.billingAddressId = none)
    (hit : req.items = [{ productId := pid, quantity := q }])
    (hp : findProduct db.products pid = some p)
    (hq : ¬ q ≤ 0) (hs : ¬ p.stock_quantity < q) :
    (∃ o, (grpcCreateOrder db req).1 = .ok o) ∧
    (grpcCreateOrder db req).2.products =
      setStock db.products pid (p.stock_quantity - q) := by
  have hpl := @processLines_single_ok (freshOrderId db)
    { productId := pid, quantity := q } db.products [] 0 p hp hq hs
  have hpl2 : processLines (freshOrderId db) req.items db.products [] 0 =
      .ok (setStock db.products pid (p.stock_quantity - q),
           [{ orderId := freshOrderId db, productId := pid, quantity := q,
              unit_price := p.price, total_price := p.price * (q : ℚ) }],
           0 + p.price * (q : ℚ)) := by
    rw [hit]
    simpa using hpl
  unfold grpcCreateOrder grpcCreateOrderBody
  simp [hc, hsh, hbl, addrCheck, hpl2]

theorem grpcCreateOrder_keeps_customers (db : DB) (req : CreateOrderRequest) :
    (grpcCreateOrder db req).2.customers = db.customers ∧
    (grpcCreateOrder db req).2.addresses = db.addresses := by
  cases hr : (grpcCreateOrder db req).1 with
  | error e =>
    rw [grpcCreateOrder_error_state hr]
    exact ⟨rfl, rfl⟩
  | ok o =>
    have hgr : grpcCreateOrder db req = (.ok o, (grpcCreateOrder db req).2) := by
      rw [← hr]
    obtain ⟨-, -, -, -, -, -, -, -, -, -, -, -, -, hc, ha⟩ :=
      grpcCreateOrder_ok_inv hgr
    exact ⟨hc, ha⟩

/-! ## Claim theorems -/

/-- Claim C1: every gRPC CreateOrder call that fails — at the customer or
address lookup, at a missing product, at an invalid quantity, or at an
insufficient-stock check on any line — leaves no partial state: the
transaction rolls back, so the database after the failed call equals the
database before it (no Order or OrderItem row persists and every stock
decrement already made for the attempt is reversed). -/
theorem grpc_create_order_rollback (db : DB) (req : CreateOrderRequest)
    (e : GrpcError) (h : (grpcCreateOrder db req).1 = .error e) :
    (grpcCreateOrder db req).2 = db :=
  grpcCreateOrder_error_state h

/-- Witness for C1: a two-line order whose second line has insufficient
stock fails with InsufficientStock naming product 2, and the database is
unchanged — the first-line reservation is released and no rows persist. -/
theorem grpc_create_order_rollback_witness :
    (grpcCreateOrder twoLineDb twoLineReq).1 =
      .error (.insufficientStock 2) ∧
    (grpcCreateOrder twoLineDb twoLineReq).2 = twoLineDb :=
  ⟨by norm_num [grpcCreateOrder, grpcCreateOrderBody, processLines,
      findProduct, setStock, freshOrderId, twoLineDb, twoLineReq, addrCheck,
      quantize2, roundHalfUpInt, orderDefaultStatus, List.find?],
   grpc_create_order_rollback twoLineDb twoLineReq (.insufficientStock 2)
     (by norm_num [grpcCreateOrder, grpcCreateOrderBody, processLines,
        findProduct, setStock, freshOrderId, twoLineDb, twoLineReq, addrCheck,
        quantize2, roundHalfUpInt, orderDefaultStatus, List.find?])⟩

/-- Counterexample to claim C4: the manual stock-update endpoint
(ProductViewSet.update_stock) assigns the requested quantity to
stock_quantity with no sign check, so a negative payload leaves the stock
negative — product 1 of taskDb goes from 10 to -3, violating the claimed
never-negative invariant. -/
theorem manual_update_stock_negative_counterexample :
    update_stock taskDb 1 (some (-3)) =
      some { taskDb with
        products := [{ pid := 1, vendor := 9, price := 5,
                       stock_quantity := -3 }] } ∧
    ((-3 : Int) < 0) := by
  exact ⟨by rfl, by decide⟩

/-- Claim C4 (amended): order placement through the gRPC path and the
asynchronous stock-adjustment task update_product_stock both preserve
non-negative stock (the task clamps at zero, the placement path decrements
only after checking availability inside the transaction), but the
never-negative invariant does not extend to the manual stock-update
endpoint, which writes the supplied value unchecked. -/
theorem stock_nonneg_amended :
    (∀ (db : DB) (req : CreateOrderRequest),
       (∀ p ∈ db.products, 0 ≤ p.stock_quantity) →
       ∀ p ∈ (grpcCreateOrder db req).2.products, 0 ≤ p.stock_quantity) ∧
    (∀ (db : DB) (pid : Nat) (q : Int),
       (∀ p ∈ db.products, 0 ≤ p.stock_quantity) →
       ∀ p ∈ (update_product_stock db pid q).products, 0 ≤ p.stock_quantity) := by
  constructor
  · intro db req hnn p hp
    cases hr : (grpcCreateOrder db req).1 with
    | error e =>
      rw [grpcCreateOrder_error_state hr] at hp
      exact hnn p hp
    | ok o =>
      have hgr : grpcCreateOrder db req = (.ok o, (grpcCreateOrder db req).2) := by
        rw [← hr]
      obtain ⟨ps', new, hpl, -, -, -, -, -, -, hprod, -, -, -, -, -⟩ :=
        grpcCreateOrder_ok_inv hgr
      rw [hprod] at hp
      exact processLines_ok_nonneg _ _ _ _ _ _ _ _ hnn hpl p hp
  · intro db pid q hnn p hp
    unfold update_product_stock at hp
    simp only [List.mem_map] at hp
    obtain ⟨x, hx, rfl⟩ := hp
    by_cases hxp : x.pid = pid
    · simp only [hxp, if_true]
      exact le_max_left 0 _
    · simp only [hxp, if_false]
      exact hnn x hx

/-- Witness for C4 (amended): concrete runs of the placement path and the
stock task keep every stock non-negative. -/
theorem stock_nonneg_amended_witness :
    (∀ p ∈ (grpcCreateOrder exampleDb exampleReq).2.products,
       0 ≤ p.stock_quantity) ∧
    (∀ p ∈ (update_product_stock taskDb 1 3).products,
       0 ≤ p.stock_quantity) :=
  ⟨stock_nonneg_amended.1 exampleDb exampleReq (by decide),
   stock_nonneg_amended.2 taskDb 1 3 (by decide)⟩

/-- Counterexample to claim C5: the REST update_status endpoint performs no
lifecycle validation at all — setting a pending order directly to
delivered succeeds (the claim requires an InvalidTransition failure),
overwrites the status, and logs the event. -/
theorem update_status_unchecked_counterexample :
    update_status pendingOrderDb 1 .delivered 7 =
      some { pendingOrderDb with
        orders := [{ oid := 1, customerId := 1, status := .delivered,
                     subtotal := 15, tax_amount := 2, shipping_cost := 10,
                     total_amount := 27 }],
        events := pendingOrderDb.events ++
          [{ orderId := 1, status := .delivered, createdBy := 7 }] } := by
  rfl

/-- Claim C5 (amended): update_status, given an existing order, accepts any
requested status value whatever the current status — there is no
InvalidTransition or DuplicateStatus check — sets it unconditionally, and
appends exactly one OrderStatus event; products are untouched. -/
theorem update_status_amended (db : DB) (oid : Nat) (s : OStatus)
    (actor : Nat) (o : OrderRow) (h : findOrder db.orders oid = some o) :
    ∃ db', update_status db oid s actor = some db' ∧
      findOrder db'.orders oid = some { o with status := s } ∧
      db'.events = db.events ++
        [{ orderId := oid, status := s, createdBy := actor }] ∧
      db'.products = db.products := by
  unfold update_status
  rw [h]
  exact ⟨_, rfl, findOrder_setOrder_self (fun x => rfl) h, rfl, rfl⟩

/-- Witness for C5 (amended): updating the pending order of
pendingOrderDb to delivered succeeds, sets the status, and appends one
event. -/
theorem update_status_amended_witness :
    ∃ db', update_status pendingOrderDb 1 .delivered 7 = some db' ∧
      findOrder db'.orders 1 =
        some { oid := 1, customerId := 1, status := .delivered,
               subtotal := 15, tax_amount := 2, shipping_cost := 10,
               total_amount := 27 } ∧
      db'.events = pendingOrderDb.events ++
        [{ orderId := 1, status := .delivered, createdBy := 7 }] ∧
      db'.products = pendingOrderDb.products :=
  update_status_amended pendingOrderDb 1 .delivered 7
    { oid := 1, customerId := 1, status := .pending, subtotal := 15,
      tax_amount := 2, shipping_cost := 10, total_amount := 27 } (by rfl)

/-- Counterexample to claim C6: cancelling the pending order of
pendingOrderDb succeeds and sets the status to cancelled, but the product
stock stays 7 — the three ordered units are never restored to 10, so
cancel_order releases no inventory reservation. -/
theorem cancel_order_no_release_counterexample :
    (∃ db', cancel_order pendingOrderDb 1 7 = .ok db' ∧
      findOrder db'.orders 1 =
        some { oid := 1, customerId := 1, status := .cancelled,
               subtotal := 15, tax_amount := 2, shipping_cost := 10,
               total_amount := 27 } ∧
      findProduct db'.products 1 =
        some { pid := 1, vendor := 9, price := 5, stock_quantity := 7 } ∧
      findProduct db'.products 1 ≠
        some { pid := 1, vendor := 9, price := 5, stock_quantity := 10 }) := by
  exact ⟨_, by rfl, by rfl, by rfl, by decide⟩

/-- Claim C6 (amended): cancel_order succeeds exactly when the current
status is pending or confirmed — setting the status to cancelled and
logging one cancellation event — and otherwise fails without changing the
order; in every case the product stocks are left untouched (no inventory
release happens). -/
theorem cancel_order_amended (db : DB) (oid : Nat) (actor : Nat)
    (o : OrderRow) (h : findOrder db.orders oid = some o) :
    ((o.status = .pending ∨ o.status = .confirmed) →
      ∃ db', cancel_order db oid actor = .ok db' ∧
        findOrder db'.orders oid = some { o with status := .cancelled } ∧
        db'.events = db.events ++
          [{ orderId := oid, status := .cancelled, createdBy := actor }] ∧
        db'.products = db.products) ∧
    (¬ (o.status = .pending ∨ o.status = .confirmed) →
      ∀ db', cancel_order db oid actor ≠ .ok db') := by
  constructor
  · intro hst
    have hcall : cancel_order db oid actor = .ok
        { db with
          orders := setOrder db.orders oid
            (fun x => { x with status := OStatus.cancelled }),
          events := db.events ++
            [{ orderId := oid, status := OStatus.cancelled,
               createdBy := actor }] } := by
      simp only [cancel_order, h]
      rw [if_pos hst]
    exact ⟨_, hcall, findOrder_setOrder_self (fun x => rfl) h, rfl, rfl⟩
  · intro hst db' hcon
    simp only [cancel_order, h] at hcon
    rw [if_neg hst] at hcon
    simp at hcon

/-- Witness for C6 (amended): the pending order cancels successfully with
stock untouched; the shipped order cannot be cancelled. -/
theorem cancel_order_amended_witness :
    (∃ db', cancel_order pendingOrderDb 1 7 = .ok db' ∧
      findOrder db'.orders 1 =
        some { oid := 1, customerId := 1, status := .cancelled,
               subtotal := 15, tax_amount := 2, shipping_cost := 10,
               total_amount := 27 } ∧
      db'.events = pendingOrderDb.events ++
        [{ orderId := 1, status := .cancelled, createdBy := 7 }] ∧
      db'.products = pendingOrderDb.products) ∧
    (∀ db', cancel_order shippedOrderDb 1 7 ≠ .ok db') :=
  ⟨(cancel_order_amended pendingOrderDb 1 7
      { oid := 1, customerId := 1, status := .pending, subtotal := 15,
        tax_amount := 2, shipping_cost := 10, total_amount := 27 }
      (by rfl)).1 (Or.inl rfl),
   (cancel_order_amended shippedOrderDb 1 7
      { oid := 1, customerId := 1, status := .shipped, subtotal := 15,
        tax_amount := 2, shipping_cost := 10, total_amount := 27 }
      (by rfl)).2 (by decide)⟩

theorem syncProduct_idem (fetch : Nat → Option ExtSnapshot) (vendorId : Nat)
    (p : Product) :
    syncProduct fetch vendorId (syncProduct fetch vendorId p) =
      syncProduct fetch vendorId p := by
  unfold syncProduct
  by_cases hv : p.vendor = vendorId
  · cases hf : fetch p.pid with
    | none => simp [hv, hf]
    | some d =>
      cases hs : d.stock <;> cases hpr : d.price <;> simp [hv, hf, hs, hpr]
  · simp [hv]

/-- Claim C9 (code bug): the external-inventory sync handler is idempotent
— it clamps each product to the fetched snapshot values, so replaying it
with the same payload leaves the same stock — but the other stock-affecting
handler, the update_product_stock task, applies a raw delta with no
idempotency guard: delivering the same (product 1, quantity 3) payload
twice on stock 10 leaves 4, while one delivery leaves 7.  The claim that
every stock-affecting background handler is idempotent is right as a
requirement and the delta task violates it. -/
theorem stock_job_idempotence_status :
    (∀ (db : DB) (vendorId : Nat) (fetch : Nat → Option ExtSnapshot),
       sync_external_inventory (sync_external_inventory db vendorId fetch)
           vendorId fetch =
         sync_external_inventory db vendorId fetch) ∧
    findProduct (update_product_stock taskDb 1 3).products 1 =
      some { pid := 1, vendor := 9, price := 5, stock_quantity := 7 } ∧
    findProduct
        (update_product_stock (update_product_stock taskDb 1 3) 1 3).products
        1 =
      some { pid := 1, vendor := 9, price := 5, stock_quantity := 4 } := by
  refine ⟨?_, by rfl, by rfl⟩
  intro db vendorId fetch
  unfold sync_external_inventory
  simp only [List.map_map]
  congr 1
  exact List.map_congr_left (fun p _ => syncProduct_idem fetch vendorId p)

/-- Claim C10: order_stats (and the gRPC GetOrderStats sharing its logic)
returns the count of all orders as totalOrders, the sum of total_amount
over delivered orders only as totalRevenue — appending a non-delivered
order never changes revenue — and totalRevenue divided by the number of
delivered orders as averageOrderValue, with 0 when no order is
delivered. -/
theorem order_stats_spec (orders : List OrderRow) :
    (order_stats orders).total_orders = orders.length ∧
    (order_stats orders).total_revenue =
      ((orders.filter (fun o => o.status = OStatus.delivered)).map
        (fun o => o.total_amount)).sum ∧
    ((orders.filter (fun o => o.status = OStatus.delivered)).length = 0 →
      (order_stats orders).average_order_value = 0) ∧
    (0 < (orders.filter (fun o => o.status = OStatus.delivered)).length →
      (order_stats orders).average_order_value *
        ((orders.filter (fun o => o.status = OStatus.delivered)).length : ℚ) =
        (order_stats orders).total_revenue) ∧
    (∀ o : OrderRow, o.status ≠ OStatus.delivered →
      (order_stats (orders ++ [o])).total_revenue =
        (order_stats orders).total_revenue) := by
  have hfold : ∀ (l : List OrderRow) (a : ℚ),
      l.foldl (fun acc o => acc + o.total_amount) a =
        a + (l.map (fun o => o.total_amount)).sum := by
    intro l
    induction l with
    | nil => intro a; simp
    | cons x xs ih => intro a; simp [ih, add_assoc]
  refine ⟨rfl, ?_, ?_, ?_, ?_⟩
  · show (orders.filter (fun o => o.status = OStatus.delivered)).foldl
        (fun acc o => acc + o.total_amount) 0 = _
    rw [hfold]
    ring
  · intro h0
    show (if 0 < (orders.filter
          (fun o => o.status = OStatus.delivered)).length then _ else _) = _
    rw [if_neg (by omega)]
  · intro h0
    show (if 0 < (orders.filter
            (fun o => o.status = OStatus.delivered)).length then
          (orders.filter (fun o => o.status = OStatus.delivered)).foldl
              (fun acc o => acc + o.total_amount) 0 /
            ((orders.filter
              (fun o => o.status = OStatus.delivered)).length : ℚ)
        else 0) * _ = _
    rw [if_pos h0]
    have hne : ((orders.filter
        (fun o => o.status = OStatus.delivered)).length : ℚ) ≠ 0 := by
      exact_mod_cast Nat.pos_iff_ne_zero.mp h0
    rw [div_mul_cancel₀ _ hne]
    rfl
  · intro o ho
    show (((orders ++ [o]).filter
        (fun o => o.status = OStatus.delivered)).foldl
          (fun acc o => acc + o.total_amount) 0) = _
    rw [List.filter_append]
    have hsingle : ([o].filter (fun o => o.status = OStatus.delivered)) = [] := by
      simp [ho]
    rw [hsingle, List.append_nil]
    rfl

/-- Witness for C10: concrete statistics — with no orders the average is 0;
on statsOrders the average times the delivered count equals the revenue;
appending a pending order leaves the revenue unchanged. -/
theorem order_stats_spec_witness :
    (order_stats []).average_order_value = 0 ∧
    (order_stats statsOrders).average_order_value *
      ((statsOrders.filter
        (fun o => o.status = OStatus.delivered)).length : ℚ) =
      (order_stats statsOrders).total_revenue ∧
    (order_stats (statsOrders ++
        [{ oid := 3, customerId := 1, status := .pending, subtotal := 1,
           tax_amount := 0, shipping_cost := 0,
           total_amount := 1 }])).total_revenue =
      (order_stats statsOrders).total_revenue :=
  ⟨(order_stats_spec []).2.2.1 (by decide),
   (order_stats_spec statsOrders).2.2.2.1 (by decide),
   (order_stats_spec statsOrders).2.2.2.2 _ (by decide)⟩

/-- Claim C2: for every successful gRPC CreateOrder on a database whose
product prices are two-decimal amounts and whose existing item rows
reference already-existing orders, the persisted order satisfies
total_amount = subtotal + tax_amount + shipping_cost exactly — the final
quantize is the identity on a sum of two-decimal amounts — and the
total_price values of the OrderItem rows belonging to the new order sum to
its subtotal. -/
theorem grpc_order_money_invariants (db : DB) (req : CreateOrderRequest)
    (o : OrderRow)
    (hprices : ∀ p ∈ db.products, TwoDp p.price)
    (hfresh : ∀ it ∈ db.items, it.orderId ≠ freshOrderId db)
    (hok : (grpcCreateOrder db req).1 = .ok o) :
    o.total_amount = o.subtotal + o.tax_amount + o.shipping_cost ∧
    ((((grpcCreateOrder db req).2).items.filter
        (fun it => it.orderId = o.oid)).map (fun it => it.total_price)).sum
      = o.subtotal := by
  have hgr : grpcCreateOrder db req = (.ok o, (grpcCreateOrder db req).2) := by
    rw [← hok]
  obtain ⟨ps', new, hpl, hoid, -, -, htax, hship, htot, -, -, hit, -, -, -⟩ :=
    grpcCreateOrder_ok_inv hgr
  have hsub2 : TwoDp o.subtotal :=
    processLines_ok_twoDp _ _ _ _ _ _ _ _ hprices twoDp_zero hpl
  have htax2 : TwoDp o.tax_amount := by
    rw [htax]; exact twoDp_quantize2 _
  have hship2 : TwoDp o.shipping_cost := by
    rw [hship]
    split
    · exact ⟨1000, by norm_num⟩
    · exact twoDp_zero
  constructor
  · rw [htot]
    exact quantize2_eq_self (twoDp_add (twoDp_add hsub2 htax2) hship2)
  · obtain ⟨new2, hacc, hsum, hids⟩ :=
      processLines_ok_items _ _ _ _ _ _ _ _ hpl
    simp only [List.nil_append] at hacc
    subst hacc
    rw [hit, List.filter_append]
    have hnil : db.items.filter (fun it => it.orderId = o.oid) = [] := by
      rw [List.filter_eq_nil_iff]
      intro it hmem
      simp only [decide_eq_true_eq]
      rw [hoid]
      exact hfresh it hmem
    have hall : new.filter (fun it => it.orderId = o.oid) = new := by
      rw [List.filter_eq_self]
      intro it hmem
      simp only [decide_eq_true_eq]
      rw [hoid]
      exact hids it hmem
    rw [hnil, hall, List.nil_append, hsum]
    simp

/-- Witness for C2: on the worked example the created order satisfies
75.97 = 59.97 + 6.00 + 10.00 exactly and the single created item total
59.97 equals the subtotal. -/
theorem grpc_order_money_invariants_witness :
    exampleOrder.total_amount =
      exampleOrder.subtotal + exampleOrder.tax_amount +
        exampleOrder.shipping_cost ∧
    ((((grpcCreateOrder exampleDb exampleReq).2).items.filter
        (fun it => it.orderId = exampleOrder.oid)).map
      (fun it => it.total_price)).sum = exampleOrder.subtotal :=
  grpc_order_money_invariants exampleDb exampleReq exampleOrder
    (by
      intro p hp
      simp only [exampleDb, List.mem_singleton] at hp
      subst hp
      exact ⟨1999, by norm_num⟩)
    (by intro it hit; simp [exampleDb] at hit)
    (by norm_num [grpcCreateOrder, grpcCreateOrderBody, processLines,
        findProduct, setStock, freshOrderId, exampleDb, exampleReq,
        exampleOrder, addrCheck, quantize2, roundHalfUpInt,
        orderDefaultStatus, List.find?])

/-- Claim C8: for every successful gRPC CreateOrder, tax_amount is the
round-half-up two-decimal quantization of 10% of the subtotal and
shipping_cost is the flat 10.00 fee when the subtotal is positive, 0
otherwise; in particular, for a product priced 19.99 with stock 10 and an
order of quantity 3 the result is subtotal 59.97, tax 6.00 (round-half-up
of 5.997), shipping 10.00, total 75.97, and the stock drops from 10 to
7. -/
theorem grpc_tax_shipping_policy (db : DB) (req : CreateOrderRequest)
    (o : OrderRow) (hok : (grpcCreateOrder db req).1 = .ok o) :
    (o.tax_amount = quantize2 (o.subtotal * (10 / 100)) ∧
     o.shipping_cost = (if 0 < o.subtotal then (10 : ℚ) else 0)) ∧
    ((grpcCreateOrder exampleDb exampleReq).1 = .ok exampleOrder ∧
     findProduct ((grpcCreateOrder exampleDb exampleReq).2).products 1 =
       some { pid := 1, vendor := 9, price := 1999 / 100,
              stock_quantity := 7 }) := by
  constructor
  · have hgr : grpcCreateOrder db req = (.ok o, (grpcCreateOrder db req).2) := by
      rw [← hok]
    obtain ⟨-, -, -, -, -, -, htax, hship, -, -, -, -, -, -, -⟩ :=
      grpcCreateOrder_ok_inv hgr
    exact ⟨htax, hship⟩
  · constructor
    · norm_num [grpcCreateOrder, grpcCreateOrderBody, processLines,
        findProduct, setStock, freshOrderId, exampleDb, exampleReq,
        exampleOrder, addrCheck, quantize2, roundHalfUpInt,
        orderDefaultStatus, List.find?]
    · norm_num [grpcCreateOrder, grpcCreateOrderBody, processLines,
        findProduct, setStock, freshOrderId, exampleDb, exampleReq,
        addrCheck, quantize2, roundHalfUpInt, orderDefaultStatus,
        List.find?]

/-- Witness for C8: the general tax and shipping policy instantiated on
the worked example order. -/
theorem grpc_tax_shipping_policy_witness :
    (exampleOrder.tax_amount =
       quantize2 (exampleOrder.subtotal * (10 / 100)) ∧
     exampleOrder.shipping_cost =
       (if 0 < exampleOrder.subtotal then (10 : ℚ) else 0)) ∧
    ((grpcCreateOrder exampleDb exampleReq).1 = .ok exampleOrder ∧
     findProduct ((grpcCreateOrder exampleDb exampleReq).2).products 1 =
       some { pid := 1, vendor := 9, price := 1999 / 100,
              stock_quantity := 7 }) :=
  grpc_tax_shipping_policy exampleDb exampleReq exampleOrder
    (by norm_num [grpcCreateOrder, grpcCreateOrderBody, processLines,
        findProduct, setStock, freshOrderId, exampleDb, exampleReq,
        exampleOrder, addrCheck, quantize2, roundHalfUpInt,
        orderDefaultStatus, List.find?])

/-- Claim C3: concurrent gRPC CreateOrder calls on the same product
serialize on the select_for_update row lock, so they are modelled by their
serial interleavings.  Whenever two single-line orders together request
more than the available stock, at most one succeeds (for either order of
execution, by symmetry of the quantifiers); and in the race of the spec —
stock 5, two valid calls each requesting 5 — the first succeeds, the
second fails with InsufficientStock on that product, and the final stock
is exactly 0. -/
theorem grpc_concurrent_reservation_exclusion
    (db : DB) (req1 req2 : CreateOrderRequest) (pid : Nat) (q1 q2 : Int)
    (p : Product)
    (h1 : req1.items = [{ productId := pid, quantity := q1 }])
    (h2 : req2.items = [{ productId := pid, quantity := q2 }])
    (hp : findProduct db.products pid = some p)
    (hsum : p.stock_quantity < q1 + q2) :
    (¬ ((∃ o, (grpcCreateOrder db req1).1 = .ok o) ∧
        (∃ o, (grpcCreateOrder (grpcCreateOrder db req1).2 req2).1 =
          .ok o))) ∧
    (req1.customerId ∈ db.customers → req1.shippingAddressId = none →
     req1.billingAddressId = none → req2.customerId ∈ db.customers →
     req2.shippingAddressId = none → req2.billingAddressId = none →
     p.stock_quantity = 5 → q1 = 5 → q2 = 5 →
      ((∃ o, (grpcCreateOrder db req1).1 = .ok o) ∧
       (grpcCreateOrder (grpcCreateOrder db req1).2 req2).1 =
         .error (.insufficientStock pid) ∧
       findProduct
           ((grpcCreateOrder (grpcCreateOrder db req1).2 req2).2).products
           pid =
         some { p with stock_quantity := 0 })) := by
  constructor
  · rintro ⟨⟨o1, ho1⟩, ⟨o2, ho2⟩⟩
    have hgr1 : grpcCreateOrder db req1 =
        (.ok o1, (grpcCreateOrder db req1).2) := by
      rw [← ho1]
    obtain ⟨ps1, new1, hpl1, -, -, -, -, -, -, hprod1, -, -, -, -, -⟩ :=
      grpcCreateOrder_ok_inv hgr1
    rw [h1] at hpl1
    obtain ⟨hq1, hs1⟩ := processLines_single_checks hp hpl1
    have hpl1c := @processLines_single_ok (freshOrderId db)
      { productId := pid, quantity := q1 } db.products [] 0 p hp hq1 hs1
    rw [hpl1c] at hpl1
    simp only [Except.ok.injEq, Prod.mk.injEq] at hpl1
    obtain ⟨hps1, -, -⟩ := hpl1
    have hp2 : findProduct (grpcCreateOrder db req1).2.products pid =
        some { p with stock_quantity := p.stock_quantity - q1 } := by
      rw [hprod1, ← hps1]
      exact findProduct_setStock_self _ hp
    have hs2 : ({ p with stock_quantity := p.stock_quantity - q1 } :
        Product).stock_quantity < q2 := by
      show p.stock_quantity - q1 < q2
      omega
    exact (grpcCreateOrder_single_fail h2 hp2 hs2).1 o2 ho2
  · intro hc1 hsh1 hbl1 hc2 hsh2 hbl2 hst5 hq1e hq2e
    subst hq1e
    subst hq2e
    have hq5 : ¬ (5 : Int) ≤ 0 := by norm_num
    have hs1 : ¬ p.stock_quantity < 5 := by omega
    obtain ⟨⟨o1, ho1⟩, hprod1⟩ :=
      grpcCreateOrder_single_ok hc1 hsh1 hbl1 h1 hp hq5 hs1
    refine ⟨⟨o1, ho1⟩, ?_, ?_⟩
    all_goals
      have hp2 : findProduct (grpcCreateOrder db req1).2.products pid =
          some { p with stock_quantity := p.stock_quantity - 5 } := by
        rw [hprod1]
        exact findProduct_setStock_self _ hp
      have hc2m : req2.customerId ∈ (grpcCreateOrder db req1).2.customers := by
        rw [(grpcCreateOrder_keeps_customers db req1).1]
        exact hc2
      have hs2 : ({ p with stock_quantity := p.stock_quantity - 5 } :
          Product).stock_quantity < 5 := by
        show p.stock_quantity - 5 < 5
        omega
      have hfail := grpcCreateOrder_single_fail_error hc2m hsh2 hbl2 h2 hp2
        hq5 hs2
    · rw [hfail]
    · rw [hfail, hprod1, findProduct_setStock_self _ hp]
      rw [hst5]
      norm_num

/-- Counterexample to claim C7: the same order — customer 1 buying three
units of product 1 priced 19.99 — leaves the stock at 10 through the REST
creation path, which never reads or writes stock, while the gRPC path
decrements it to 7; the transport adapters do not implement the same
reservation semantics. -/
theorem adapter_stock_divergence_counterexample :
    findProduct ((restCreateOrder exampleDb exampleRestReq).1).products 1 =
      some { pid := 1, vendor := 9, price := 1999 / 100,
             stock_quantity := 10 } ∧
    findProduct ((grpcCreateOrder exampleDb exampleReq).2).products 1 =
      some { pid := 1, vendor := 9, price := 1999 / 100,
             stock_quantity := 7 } ∧
    (10 : Int) ≠ 7 := by
  refine ⟨by rfl, ?_, by decide⟩
  norm_num [grpcCreateOrder, grpcCreateOrderBody, processLines,
    findProduct, setStock, freshOrderId, exampleDb, exampleReq, addrCheck,
    quantize2, roundHalfUpInt, orderDefaultStatus, List.find?]

/-- Claim C7 (amended): the three transport adapters do not implement one
PlaceOrder semantics.  The REST serializer path and the GraphQL mutation
persist order and item rows while leaving every product row — and hence
all stock — unchanged on all inputs, whereas the gRPC path decrements the
stock of the ordered product synchronously inside the creation
transaction. -/
theorem adapter_semantics_amended :
    (∀ (db : DB) (req : RestCreateRequest),
       ((restCreateOrder db req).1).products = db.products) ∧
    (∀ (db : DB) (req : GqlCreateRequest),
       ((gqlCreateOrder db req).2).products = db.products) ∧
    (∀ (db : DB) (req : CreateOrderRequest) (pid : Nat) (q : Int)
       (p : Product),
       req.customerId ∈ db.customers → req.shippingAddressId = none →
       req.billingAddressId = none →
       req.items = [{ productId := pid, quantity := q }] →
       findProduct db.products pid = some p → ¬ q ≤ 0 →
       ¬ p.stock_quantity < q →
       findProduct ((grpcCreateOrder db req).2).products pid =
         some { p with stock_quantity := p.stock_quantity - q }) := by
  refine ⟨fun db req => rfl, ?_, ?_⟩
  · intro db req
    unfold gqlCreateOrder
    by_cases hc : req.customerId ∈ db.customers
    · rw [if_pos hc]
      rcases hgp : gqlProcessItems (freshOrderId db) req.items
        db.products [] 0 with ⟨err, acc, tot⟩
      cases err <;> simp [hgp]
    · rw [if_neg hc]
  · intro db req pid q p hc hsh hbl hit hp hq hs
    rw [(grpcCreateOrder_single_ok hc hsh hbl hit hp hq hs).2]
    exact findProduct_setStock_self _ hp

/-- Witness for C7 (amended): on the worked example the REST and GraphQL
paths leave the product table unchanged while the gRPC path drops the
stock by the ordered quantity 3. -/
theorem adapter_semantics_amended_witness :
    ((restCreateOrder exampleDb exampleRestReq).1).products =
      exampleDb.products ∧
    ((gqlCreateOrder exampleDb
        { customerId := 1,
          items := [{ productId := 1, quantity := 3 }] }).2).products =
      exampleDb.products ∧
    findProduct ((grpcCreateOrder exampleDb exampleReq).2).products 1 =
      some { pid := 1, vendor := 9, price := 1999 / 100,
             stock_quantity := 10 - 3 } :=
  ⟨adapter_semantics_amended.1 exampleDb exampleRestReq,
   adapter_semantics_amended.2.1 exampleDb
     { customerId := 1, items := [{ productId := 1, quantity := 3 }] },
   adapter_semantics_amended.2.2 exampleDb exampleReq 1 3
     { pid := 1, vendor := 9, price := 1999 / 100, stock_quantity := 10 }
     (by decide) rfl rfl rfl (by rfl) (by decide) (by decide)⟩

/-- Witness for C3: the race of the spec run concretely — a product with
stock 5 and two requests for 5 units each: not both succeed; the first
succeeds, the second fails InsufficientStock on product 1, and the final
stock is 0. -/
theorem grpc_concurrent_reservation_exclusion_witness :
    (¬ ((∃ o, (grpcCreateOrder raceDb raceReq).1 = .ok o) ∧
        (∃ o, (grpcCreateOrder (grpcCreateOrder raceDb raceReq).2
            raceReq).1 = .ok o))) ∧
    ((∃ o, (grpcCreateOrder raceDb raceReq).1 = .ok o) ∧
     (grpcCreateOrder (grpcCreateOrder raceDb raceReq).2 raceReq).1 =
       .error (.insufficientStock 1) ∧
     findProduct
         ((grpcCreateOrder (grpcCreateOrder raceDb raceReq).2
             raceReq).2).products 1 =
       some { pid := 1, vendor := 9, price := 5, stock_quantity := 0 }) :=
  have h := grpc_concurrent_reservation_exclusion raceDb raceReq raceReq 1 5 5
    { pid := 1, vendor := 9, price := 5, stock_quantity := 5 }
    rfl rfl (by rfl) (by decide)
  ⟨h.1, h.2 (by decide) rfl rfl (by decide) rfl rfl rfl rfl rfl⟩
